import Mathlib

/-!
# API testing tool backend (`src/index.js`)

A shallow embedding of the Express handlers of `src/index.js`:

* `POST /api/proxy` (lines 36-83) is `proxy`;
* `GET /api/history`, `DELETE /api/history/:id`, `DELETE /api/history`
  (lines 86-145) are `getHistory`, `deleteHistoryItem`, `clearHistory`;
* `GET /api/collections` (lines 167-196) is `getCollections`.

What the handlers read from their environment is an explicit argument: the two
`Date.now()` readings, the behaviour of the upstream reached through `axios`,
the fate of the detached history insert, and the tables held by the store.
What they do to their environment is an explicit result: the HTTP answer, the
upstream calls issued, the history rows submitted, the console lines.
-/

namespace ApiTestingTool

/-! ## JavaScript values -/

/-- JSON-like JavaScript value, as produced by `express.json()` for a request
body and by `axios` for a response body. Numbers are restricted to integers:
`num n` is the number that JavaScript itself writes as `n`, and a number with a
fractional part has no counterpart here. Strings are sequences of Unicode scalar
values. -/
inductive JVal where
  | null : JVal
  | bool (b : Bool) : JVal
  | num (n : Int) : JVal
  | str (s : String) : JVal
  | arr (xs : List JVal) : JVal
  | obj (kvs : List (String × JVal)) : JVal

/-- Property read of an object literal: `o[k]`, `none` standing for `undefined`. -/
def JVal.get? (k : String) : JVal → Option JVal
  | .obj kvs => kvs.lookup k
  | _ => none

/-- JavaScript truthiness of a destructured property (`none` is `undefined`):
`undefined`, `null`, `false`, `0` and `""` are falsy, everything else is truthy. -/
def truthy : Option JVal → Bool
  | none => false
  | some .null => false
  | some (.bool b) => b
  | some (.num n) => n != 0
  | some (.str s) => s != ""
  | some (.arr _) => true
  | some (.obj _) => true

/-- The expression `x || d` for a defined right operand `d`. -/
def orDefault (x : Option JVal) (d : JVal) : JVal :=
  match x with
  | some v => if truthy (some v) then v else d
  | none => d

/-- The one-character string with the given code point. -/
def chr (n : Nat) : String := String.singleton (Char.ofNat n)

/-- Escape of one character inside a JSON string literal, as `JSON.stringify`
writes it: the quote, the backslash, the short escapes and `\u00XX` for the
remaining control characters. -/
def escapeChar (c : Char) : String :=
  if c.toNat = 34 then chr 92 ++ chr 34
  else if c.toNat = 92 then chr 92 ++ chr 92
  else if c.toNat = 8 then chr 92 ++ "b"
  else if c.toNat = 12 then chr 92 ++ "f"
  else if c.toNat = 10 then chr 92 ++ "n"
  else if c.toNat = 13 then chr 92 ++ "r"
  else if c.toNat = 9 then chr 92 ++ "t"
  else if c.toNat < 32 then
    chr 92 ++ "u00" ++ String.singleton (Nat.digitChar (c.toNat / 16))
      ++ String.singleton (Nat.digitChar (c.toNat % 16))
  else String.singleton c

/-- JSON string literal for `s`. -/
def quoteJSON (s : String) : String :=
  chr 34 ++ String.join (s.toList.map escapeChar) ++ chr 34

/-- The exponent form in which JavaScript writes a natural number of more than
21 digits: the digits up to the last one that is not zero, a point after the
first of them when there are several, then `e+` and the number of digits less one. -/
def exponentForm (m : Nat) : String :=
  match ((Nat.toDigits 10 m).reverse.dropWhile (fun c => c.toNat = 48)).reverse with
  | [] => "0"
  | [d] => String.singleton d ++ "e+" ++ toString ((Nat.toDigits 10 m).length - 1)
  | d :: rest =>
    String.singleton d ++ "." ++ String.mk rest ++ "e+"
      ++ toString ((Nat.toDigits 10 m).length - 1)

/-- The text JavaScript gives an integral number in a template literal and in
`JSON.stringify`: plain decimal below `10 ^ 21` in magnitude, exponent form
from there on, a minus sign before a negative number. -/
def numberToString (n : Int) : String :=
  if n.natAbs < 10 ^ 21 then toString n
  else if n < 0 then "-" ++ exponentForm n.natAbs
  else exponentForm n.natAbs

mutual
/-- Compact serialisation `JSON.stringify(v)`. -/
def stringify : JVal → String
  | .null => "null"
  | .bool true => "true"
  | .bool false => "false"
  | .num n => numberToString n
  | .str s => quoteJSON s
  | .arr xs => "[" ++ stringifyElems xs ++ "]"
  | .obj kvs => "\x7b" ++ stringifyFields kvs ++ "\x7d"
/-- Comma-separated elements of an array. -/
def stringifyElems : List JVal → String
  | [] => ""
  | [x] => stringify x
  | x :: y :: rest => stringify x ++ "," ++ stringifyElems (y :: rest)
/-- Comma-separated members of an object. -/
def stringifyFields : List (String × JVal) → String
  | [] => ""
  | [(k, v)] => quoteJSON k ++ ":" ++ stringify v
  | (k, v) :: kv :: rest =>
    quoteJSON k ++ ":" ++ stringify v ++ "," ++ stringifyFields (kv :: rest)
end

/-- The `.length` of a JavaScript string: its number of UTF-16 code units
(one per character of the basic plane, two per character above it). -/
def jsLength (s : String) : Nat :=
  (s.toList.map (fun c => if c.toNat < 65536 then 1 else 2)).sum

/-- Byte length of a string in UTF-8, the encoding in which `res.json` sends it. -/
def byteLength (s : String) : Nat := s.utf8ByteSize

/-! ## `POST /api/proxy` -/

/-- The destructured request body of `POST /api/proxy` (line 37). -/
structure ProxyRequest where
  url : Option JVal
  method : Option JVal
  headers : Option JVal
  body : Option JVal
  params : Option JVal
  user_id : Option JVal

/-- The argument of the `axios(...)` call (lines 43-50). -/
structure AxiosConfig where
  url : Option JVal
  method : Option JVal
  headers : Option JVal
  params : Option JVal
  data : Option JVal
  validateStatus : Nat → Bool

/-- An HTTP response received from the upstream; `headers` holds the header
names in lower case, as Node delivers them. -/
structure UpstreamResponse where
  status : Nat
  statusText : String
  headers : JVal
  data : JVal

/-- What one exchange with the upstream yields: a response arrives, or the
exchange fails (DNS, refused connection, timeout, bad configuration). -/
inductive TransportOutcome where
  | received (response : UpstreamResponse) : TransportOutcome
  | failed (message : String) : TransportOutcome

/-- The number of redirects the HTTP client follows when the configuration sets
no `maxRedirects`, as at lines 43-50. -/
def maxRedirects : Nat := 21

/-- A response the HTTP client follows instead of handing it over: a status
from 300 to 399 together with a `Location` header. -/
def isRedirect (response : UpstreamResponse) : Bool :=
  truthy (response.headers.get? "location") && decide (300 ≤ response.status)
    && decide (response.status < 400)

/-- The way `axios` settles a response handed over to it: resolved when it has
no status or `validateStatus` accepts the status, rejected otherwise. -/
def settle (config : AxiosConfig) (response : UpstreamResponse) :
    Except String UpstreamResponse :=
  if response.status = 0 ∨ config.validateStatus response.status then .ok response
  else .error ("Request failed with status code " ++ toString response.status)

/-- The exchanges of one `axios` call from exchange number `hop` on, with the
given number of redirects still allowed; `exchange k` is what the k-th exchange
of the call yields. A failed exchange rejects with its message, a redirect is
followed by the next exchange or rejects when none is allowed any more, any
other response is settled. -/
def followRedirects (config : AxiosConfig) (exchange : Nat → TransportOutcome) :
    Nat → Nat → Except String UpstreamResponse
  | 0, hop =>
    match exchange hop with
    | .failed message => .error message
    | .received response =>
      if isRedirect response then .error "Maximum number of redirects exceeded"
      else settle config response
  | allowed + 1, hop =>
    match exchange hop with
    | .failed message => .error message
    | .received response =>
      if isRedirect response then followRedirects config exchange allowed (hop + 1)
      else settle config response

/-- The promise of `axios(config)`: resolved with a response or rejected with
an error message. -/
def axios (config : AxiosConfig) (exchange : Nat → TransportOutcome) :
    Except String UpstreamResponse :=
  followRedirects config exchange maxRedirects 0

/-- The object handed to `supabase.from("history").insert([...])` (lines 54-63).
Field `user_id` is `none` when the property was never set. -/
structure HistoryRow where
  url : Option JVal
  method : Option JVal
  headers : JVal
  body : JVal
  user_id : Option JVal

/-- Fate of the promise of the detached history insert. -/
inductive InsertOutcome where
  | resolved : InsertOutcome
  | rejected (err : String) : InsertOutcome
  | pending : InsertOutcome

/-- An answer sent with `res.status(code).json(body)`; `res.json` alone is code 200. -/
structure HttpResponse where
  code : Nat
  body : JVal

/-- One step of the handler that touches its environment, in program order. -/
inductive Event where
  | now (reading : Int) : Event
  | request (config : AxiosConfig) : Event
  | insert (row : HistoryRow) : Event
  | log (line : String) : Event
  | respond (response : HttpResponse) : Event

/-- Everything observable of one run of the proxy handler: the answer, the
`axios` calls issued, the history rows submitted, the console lines, and the
steps of the handler itself in the order in which it takes them. -/
structure ProxyResult where
  response : HttpResponse
  upstreamCalls : List AxiosConfig
  inserts : List HistoryRow
  logs : List String
  trace : List Event

/-- The configuration built at lines 43-50. -/
def axiosConfig (req : ProxyRequest) : AxiosConfig :=
  { url := req.url, method := req.method, headers := req.headers, params := req.params,
    data := req.body, validateStatus := fun _ => true }

/-- The row built at lines 54-63. -/
def historyRow (req : ProxyRequest) : HistoryRow :=
  { url := req.url, method := req.method,
    headers := orDefault req.headers (.obj []),
    body := orDefault req.body (.obj []),
    user_id := if truthy req.user_id then req.user_id else none }

/-- The `time` field of line 76. -/
def timeField (startTime endTime : Int) : String :=
  numberToString (endTime - startTime) ++ "ms"

/-- The `size` field of line 77. -/
def sizeField (data : JVal) : String :=
  numberToString (jsLength (stringify data)) ++ " bytes"

/-- The envelope of lines 71-78. -/
def envelope (response : UpstreamResponse) (startTime endTime : Int) : JVal :=
  .obj [("status", .num response.status), ("statusText", .str response.statusText),
    ("headers", response.headers), ("data", response.data),
    ("time", .str (timeField startTime endTime)), ("size", .str (sizeField response.data))]

/-- Console lines written by the `.catch` of the detached insert (line 69). -/
def insertLogs : InsertOutcome → List String
  | .rejected err => ["History insert error: " ++ err]
  | _ => []

/-- The handler of `POST /api/proxy` (lines 36-83). `startTime` is the reading
of the `Date.now()` of line 41 and `endTime` that of line 52; `transport config k`
is what the k-th exchange of the call `axios(config)` yields; `insertOutcome` is
what becomes of the detached insert. -/
def proxy (req : ProxyRequest) (startTime endTime : Int)
    (transport : AxiosConfig → Nat → TransportOutcome) (insertOutcome : InsertOutcome) :
    ProxyResult :=
  if !truthy req.url then
    { response := ⟨400, .obj [("error", .str "URL is required")]⟩,
      upstreamCalls := [], inserts := [], logs := [],
      trace := [.respond ⟨400, .obj [("error", .str "URL is required")]⟩] }
  else
    match axios (axiosConfig req) (transport (axiosConfig req)) with
    | .ok response =>
      { response := ⟨200, envelope response startTime endTime⟩,
        upstreamCalls := [axiosConfig req],
        inserts := [historyRow req],
        logs := insertLogs insertOutcome,
        trace := [.now startTime, .request (axiosConfig req), .now endTime,
          .insert (historyRow req), .respond ⟨200, envelope response startTime endTime⟩] }
    | .error message =>
      { response := ⟨500, .obj [("error", .str "Request Failed"), ("details", .str message)]⟩,
        upstreamCalls := [axiosConfig req],
        inserts := [],
        logs := ["Proxy error: " ++ message],
        trace := [.now startTime, .request (axiosConfig req),
          .log ("Proxy error: " ++ message),
          .respond ⟨500, .obj [("error", .str "Request Failed"),
            ("details", .str message)]⟩] }

/-! ## The record store

The tables live in Supabase; a table is modelled as the list of its rows, and a
query by the rows it selects or leaves. `storeError` is the `error` member of
the store's answer, `none` when the store carried the query out. -/

/-- Identifier of a record, in its textual form. -/
abbrev RecordId := String

/-- A row of table `history`. `user_id` is `none` for a row without owner. -/
structure HistoryEntry where
  id : RecordId
  user_id : Option String
  url : JVal
  method : JVal
  headers : JVal
  body : JVal
  created_at : Nat

/-- A row of table `collections`. -/
structure Collection where
  id : RecordId
  name : JVal
  user_id : Option String
  created_at : Nat

/-- A row of table `collection_items`. -/
structure CollectionItem where
  id : RecordId
  collection_id : Option RecordId
  name : JVal
  url : JVal
  method : JVal
  headers : JVal
  body : JVal

/-- A collection together with its `items` member (lines 186-189); the table
`collections` has no column of that name, so the spread keeps every column. -/
structure CollectionWithItems extends Collection where
  items : List CollectionItem

/-- Answer of a store-backed handler: `res.json(data)`, or
`res.status(code).json(\x7berror: message\x7d)`. -/
inductive Reply (α : Type) where
  | ok (data : α) : Reply α
  | error (code : Nat) (message : String) : Reply α

/-- The order of `.order("created_at", \x7bascending: false\x7d)`: `a` may stand
before `b` when `a` is not older than `b`. -/
def newestFirst {α : Type} (created_at : α → Nat) (a b : α) : Prop :=
  created_at b ≤ created_at a

instance newestFirstDecidable {α : Type} (created_at : α → Nat) :
    DecidableRel (newestFirst created_at) :=
  fun a b => inferInstanceAs (Decidable (created_at b ≤ created_at a))

instance newestFirstTotal {α : Type} (created_at : α → Nat) :
    IsTotal α (newestFirst created_at) :=
  ⟨fun a b => Nat.le_total (created_at b) (created_at a)⟩

instance newestFirstTrans {α : Type} (created_at : α → Nat) :
    IsTrans α (newestFirst created_at) :=
  ⟨fun _ _ _ hab hbc => Nat.le_trans hbc hab⟩

/-- Rows in descending order of `created_at`. -/
def orderDesc {α : Type} (created_at : α → Nat) (rows : List α) : List α :=
  rows.insertionSort (newestFirst created_at)

/-- The query of lines 91-96:
`select("*").eq("user_id", userId).order("created_at", desc).limit(50)`. -/
def selectHistory (userId : String) (history : List HistoryEntry) : List HistoryEntry :=
  (orderDesc HistoryEntry.created_at (history.filter (fun r => r.user_id == some userId))).take 50

/-- The table after the query of lines 114-118:
`delete().eq("id", historyId).eq("user_id", userId)`. -/
def deleteByIdAndUser (historyId : RecordId) (userId : String)
    (history : List HistoryEntry) : List HistoryEntry :=
  history.filter (fun r => !(r.id == historyId && r.user_id == some userId))

/-- The table after the query of lines 134-137: `delete().eq("user_id", userId)`. -/
def deleteByUser (userId : String) (history : List HistoryEntry) : List HistoryEntry :=
  history.filter (fun r => !(r.user_id == some userId))

/-- The query of lines 172-176:
`select("*").eq("user_id", userId).order("created_at", desc)`. -/
def selectCollections (userId : String) (collections : List Collection) : List Collection :=
  orderDesc Collection.created_at (collections.filter (fun c => c.user_id == some userId))

/-- The in-memory join of lines 186-189. -/
def joinItems (collections : List Collection) (items : List CollectionItem) :
    List CollectionWithItems :=
  collections.map (fun c =>
    { toCollection := c, items := items.filter (fun i => i.collection_id == some c.id) })

/-- The handler of `GET /api/history` (lines 86-104); `userId` is the header
`user-id`, `none` when the header is missing. -/
def getHistory (userId : Option String) (history : List HistoryEntry)
    (storeError : Option String) : Reply (List HistoryEntry) :=
  match userId with
  | none => .error 400 "User ID required"
  | some uid =>
    if uid = "" then .error 400 "User ID required"
    else
      match storeError with
      | some message => .error 500 message
      | none => .ok (selectHistory uid history)

/-- The handler of `DELETE /api/history/:id` (lines 107-126): its answer and the
table `history` it leaves. -/
def deleteHistoryItem (userId : Option String) (historyId : RecordId)
    (history : List HistoryEntry) (storeError : Option String) :
    Reply String × List HistoryEntry :=
  match userId with
  | none => (.error 400 "User ID required", history)
  | some uid =>
    if uid = "" then (.error 400 "User ID required", history)
    else
      match storeError with
      | some message => (.error 500 message, history)
      | none => (.ok "Deleted successfully", deleteByIdAndUser historyId uid history)

/-- The handler of `DELETE /api/history` (lines 129-145): its answer and the
table `history` it leaves. -/
def clearHistory (userId : Option String) (history : List HistoryEntry)
    (storeError : Option String) : Reply String × List HistoryEntry :=
  match userId with
  | none => (.error 400 "User ID required", history)
  | some uid =>
    if uid = "" then (.error 400 "User ID required", history)
    else
      match storeError with
      | some message => (.error 500 message, history)
      | none => (.ok "History cleared", deleteByUser uid history)

/-- The handler of `GET /api/collections` (lines 167-196); `colError` and
`itemError` are the errors of the two queries. -/
def getCollections (userId : Option String) (collections : List Collection)
    (collection_items : List CollectionItem) (colError itemError : Option String) :
    Reply (List CollectionWithItems) :=
  match userId with
  | none => .error 400 "User ID required"
  | some uid =>
    if uid = "" then .error 400 "User ID required"
    else
      match colError with
      | some message => .error 500 message
      | none =>
        match itemError with
        | some message => .error 500 message
        | none => .ok (joinItems (selectCollections uid collections) collection_items)

/-! ## Sample tables -/

/-- A table `history` with two owners; rows `7` of `alice` and `8` of `bob`
are the newest of each. -/
def sampleHistory : List HistoryEntry :=
  [⟨"5", some "alice", .str "http://a/1", .str "GET", .obj [], .obj [], 100⟩,
   ⟨"8", some "bob", .str "http://b/1", .str "GET", .obj [], .obj [], 300⟩,
   ⟨"7", some "alice", .str "http://a/2", .str "POST", .obj [], .obj [], 200⟩,
   ⟨"9", none, .str "http://c/1", .str "GET", .obj [], .obj [], 400⟩]

/-- A table `collections` with two owners. -/
def sampleCollections : List Collection :=
  [⟨"c1", .str "first", some "alice", 10⟩, ⟨"c2", .str "second", some "alice", 20⟩,
   ⟨"c3", .str "other", some "bob", 30⟩]

/-- A table `collection_items` with items of three collections. -/
def sampleItems : List CollectionItem :=
  [⟨"i1", some "c1", .str "a", .str "http://a", .str "GET", .obj [], .obj []⟩,
   ⟨"i2", some "c3", .str "b", .str "http://b", .str "GET", .obj [], .obj []⟩,
   ⟨"i3", some "c1", .str "c", .str "http://c", .str "GET", .obj [], .obj []⟩,
   ⟨"i4", none, .str "d", .str "http://d", .str "GET", .obj [], .obj []⟩]

/-! ## The text of a number -/

/-- A conditional differs from a character that both of its branches differ from. -/
theorem ite_ne_of {c : Prop} [Decidable c] {a b x : Char} (ha : a ≠ x) (hb : b ≠ x) :
    (if c then a else b) ≠ x := by
  split <;> assumption

/-- No digit is the minus sign. -/
theorem digitChar_ne_minus (n : Nat) : Nat.digitChar n ≠ Char.ofNat 45 := by
  unfold Nat.digitChar
  repeat (apply ite_ne_of (by decide))
  decide

/-- The digits of a natural number, computed with any fuel, hold no minus sign. -/
theorem toDigitsCore_no_minus (fuel : Nat) : ∀ (n : Nat) (ds : List Char),
    (∀ c ∈ ds, c ≠ Char.ofNat 45) → ∀ c ∈ Nat.toDigitsCore 10 fuel n ds, c ≠ Char.ofNat 45 := by
  induction fuel with
  | zero => intro n ds h; simpa [Nat.toDigitsCore] using h
  | succ fuel ih =>
    intro n ds h
    have hcons : ∀ c ∈ Nat.digitChar (n % 10) :: ds, c ≠ Char.ofNat 45 := by
      intro c hc
      rcases List.mem_cons.1 hc with rfl | hc
      · exact digitChar_ne_minus _
      · exact h c hc
    simp only [Nat.toDigitsCore]
    split
    · exact hcons
    · exact ih _ _ hcons

/-- The decimal digits of a natural number hold no minus sign. -/
theorem toDigits_no_minus (m : Nat) : ∀ c ∈ Nat.toDigits 10 m, c ≠ Char.ofNat 45 :=
  toDigitsCore_no_minus _ _ _ (fun _ h => absurd h (List.not_mem_nil _))

/-- The decimal text of a natural number holds no minus sign. -/
theorem repr_no_minus (m : Nat) : Char.ofNat 45 ∉ (toString m).toList := by
  intro h
  exact toDigits_no_minus m _ h rfl

/-- The exponent form of a natural number holds no minus sign. -/
theorem exponentForm_no_minus (m : Nat) : Char.ofNat 45 ∉ (exponentForm m).toList := by
  have hsig : ∀ c ∈ ((Nat.toDigits 10 m).reverse.dropWhile (fun c => c.toNat = 48)).reverse,
      c ≠ Char.ofNat 45 := by
    intro c hc
    rw [List.mem_reverse] at hc
    exact toDigits_no_minus m c (List.mem_reverse.1 ((List.dropWhile_suffix _).subset hc))
  unfold exponentForm
  split
  · decide
  · next d heq =>
    rw [heq] at hsig
    have hd := hsig d (List.mem_singleton.2 rfl)
    intro h
    simp only [String.toList, String.data_append, List.mem_append] at h
    rcases h with (h | h) | h
    · simp [String.singleton] at h
      exact hd h.symm
    · revert h; decide
    · exact repr_no_minus _ h
  · next d rest _ heq =>
    rw [heq] at hsig
    intro h
    simp only [String.toList, String.data_append, List.mem_append] at h
    rcases h with (((h | h) | h) | h) | h
    · simp [String.singleton] at h
      exact hsig d (List.mem_cons_self _ _) h.symm
    · revert h; decide
    · exact hsig _ (List.mem_cons_of_mem _ h) rfl
    · revert h; decide
    · exact repr_no_minus _ h

/-- The text of a number that is not negative holds no minus sign. -/
theorem numberToString_nonneg (n : Int) (h : 0 ≤ n) :
    Char.ofNat 45 ∉ (numberToString n).toList := by
  obtain ⟨m, rfl⟩ := Int.eq_ofNat_of_zero_le h
  unfold numberToString
  split
  · exact repr_no_minus m
  · rw [if_neg (by omega)]
    exact exponentForm_no_minus _

/-- The text of a negative number starts with a minus sign. -/
theorem numberToString_neg (n : Int) (h : n < 0) :
    ∃ rest, numberToString n = "-" ++ rest := by
  obtain ⟨m, rfl⟩ : ∃ m : Nat, n = Int.negSucc m := ⟨(-n - 1).toNat, by rw [Int.negSucc_eq]; omega⟩
  unfold numberToString
  split
  · exact ⟨toString (m + 1), rfl⟩
  · exact ⟨_, rfl⟩

/-- Numbers at the border of the two forms: `10 ^ 21` and above are written with
an exponent, anything below in plain decimal. -/
theorem numberToString_examples :
    numberToString (10 ^ 21) = "1e+21" ∧
      numberToString (10 ^ 21 - 1) = "999999999999999999999" ∧
      numberToString (-(12345 * 10 ^ 20)) = "-1.2345e+24" ∧
      numberToString (-1) = "-1" ∧ numberToString 0 = "0" := by
  decide

/-! ## Properties of `POST /api/proxy` -/

/-- With `validateStatus: () => true` every response handed over is resolved. -/
theorem settle_axiosConfig (req : ProxyRequest) (response : UpstreamResponse) :
    settle (axiosConfig req) response = .ok response := by
  simp [settle, axiosConfig]

/-- After `k` redirects, `k` not above the number allowed, the first response
that is not a redirect is the one the call resolves with. -/
theorem followRedirects_resolves (req : ProxyRequest) (exchange : Nat → TransportOutcome) :
    ∀ (k allowed hop : Nat) (response : UpstreamResponse), k ≤ allowed →
      (∀ j, j < k → ∃ r, exchange (hop + j) = .received r ∧ isRedirect r = true) →
      exchange (hop + k) = .received response → isRedirect response = false →
      followRedirects (axiosConfig req) exchange allowed hop = .ok response := by
  intro k
  induction k with
  | zero =>
    intro allowed hop response _ _ hlast hnot
    rw [Nat.add_zero] at hlast
    cases allowed <;> simp [followRedirects, hlast, hnot, settle_axiosConfig]
  | succ k ih =>
    intro allowed hop response hle hpre hlast hnot
    obtain ⟨allowed, rfl⟩ : ∃ a, allowed = a + 1 := ⟨allowed - 1, by omega⟩
    obtain ⟨r0, hr0, hred0⟩ := hpre 0 (Nat.succ_pos k)
    rw [Nat.add_zero] at hr0
    have hstep : followRedirects (axiosConfig req) exchange (allowed + 1) hop =
        followRedirects (axiosConfig req) exchange allowed (hop + 1) := by
      simp [followRedirects, hr0, hred0]
    rw [hstep]
    refine ih allowed (hop + 1) response (by omega) ?_ ?_ hnot
    · intro j hj
      have := hpre (j + 1) (by omega)
      rwa [show hop + (j + 1) = hop + 1 + j by omega] at this
    · rwa [show hop + (k + 1) = hop + 1 + k by omega] at hlast

/-- A call that rejects met a failed exchange after following redirects only,
or met one redirect more than allowed. -/
theorem followRedirects_rejects (req : ProxyRequest) (exchange : Nat → TransportOutcome) :
    ∀ (allowed hop : Nat) (message : String),
      followRedirects (axiosConfig req) exchange allowed hop = .error message →
      (∃ k, k ≤ allowed ∧
          (∀ j, j < k → ∃ r, exchange (hop + j) = .received r ∧ isRedirect r = true) ∧
          exchange (hop + k) = .failed message) ∨
        ((∀ j, j ≤ allowed → ∃ r, exchange (hop + j) = .received r ∧ isRedirect r = true) ∧
          message = "Maximum number of redirects exceeded") := by
  intro allowed
  induction allowed with
  | zero =>
    intro hop message h
    cases hO : exchange hop with
    | failed m =>
      simp only [followRedirects, hO, Except.error.injEq] at h
      exact Or.inl ⟨0, le_refl _, fun j hj => absurd hj (Nat.not_lt_zero j), by rw [← h]; exact hO⟩
    | received r =>
      cases hred : isRedirect r with
      | false => simp [followRedirects, hO, hred, settle_axiosConfig] at h
      | true =>
        simp only [followRedirects, hO, hred, if_true, Except.error.injEq] at h
        refine Or.inr ⟨?_, h.symm⟩
        intro j hj
        obtain rfl : j = 0 := by omega
        exact ⟨r, hO, hred⟩
  | succ allowed ih =>
    intro hop message h
    cases hO : exchange hop with
    | failed m =>
      simp only [followRedirects, hO, Except.error.injEq] at h
      exact Or.inl ⟨0, Nat.zero_le _, fun j hj => absurd hj (Nat.not_lt_zero j),
        by rw [← h]; exact hO⟩
    | received r =>
      cases hred : isRedirect r with
      | false => simp [followRedirects, hO, hred, settle_axiosConfig] at h
      | true =>
        simp only [followRedirects, hO, hred, if_true] at h
        rcases ih (hop + 1) message h with ⟨k, hk, hpre, hfail⟩ | ⟨hall, hmsg⟩
        · refine Or.inl ⟨k + 1, by omega, ?_, ?_⟩
          · intro j hj
            cases j with
            | zero => exact ⟨r, hO, hred⟩
            | succ j =>
              have := hpre j (by omega)
              rwa [show hop + 1 + j = hop + (j + 1) by omega] at this
          · rwa [show hop + 1 + k = hop + (k + 1) by omega] at hfail
        · refine Or.inr ⟨?_, hmsg⟩
          intro j hj
          cases j with
          | zero => exact ⟨r, hO, hred⟩
          | succ j =>
            have := hall j (by omega)
            rwa [show hop + 1 + j = hop + (j + 1) by omega] at this

/-- Unfolding of the handler on a truthy `url`. -/
theorem proxy_of_truthy (req : ProxyRequest) (h : truthy req.url = true)
    (startTime endTime : Int) (transport : AxiosConfig → Nat → TransportOutcome)
    (insertOutcome : InsertOutcome) :
    proxy req startTime endTime transport insertOutcome =
      match axios (axiosConfig req) (transport (axiosConfig req)) with
      | .ok response =>
        { response := ⟨200, envelope response startTime endTime⟩,
          upstreamCalls := [axiosConfig req],
          inserts := [historyRow req],
          logs := insertLogs insertOutcome,
          trace := [.now startTime, .request (axiosConfig req), .now endTime,
            .insert (historyRow req),
            .respond ⟨200, envelope response startTime endTime⟩] }
      | .error message =>
        { response :=
            ⟨500, .obj [("error", .str "Request Failed"), ("details", .str message)]⟩,
          upstreamCalls := [axiosConfig req],
          inserts := [],
          logs := ["Proxy error: " ++ message],
          trace := [.now startTime, .request (axiosConfig req),
            .log ("Proxy error: " ++ message),
            .respond ⟨500, .obj [("error", .str "Request Failed"),
              ("details", .str message)]⟩] } := by
  unfold proxy
  simp only [h, Bool.not_true, Bool.false_eq_true, if_false]

/-- Unfolding of the handler on a falsy `url`. -/
theorem proxy_of_falsy (req : ProxyRequest) (h : truthy req.url = false)
    (startTime endTime : Int) (transport : AxiosConfig → Nat → TransportOutcome)
    (insertOutcome : InsertOutcome) :
    proxy req startTime endTime transport insertOutcome =
      { response := ⟨400, .obj [("error", .str "URL is required")]⟩,
        upstreamCalls := [], inserts := [], logs := [],
        trace := [.respond ⟨400, .obj [("error", .str "URL is required")]⟩] } := by
  unfold proxy
  simp [h]

/-- A non-empty string is truthy. -/
theorem truthy_str (u : String) (hu : u ≠ "") : truthy (some (.str u)) = true := by
  simp [truthy, hu]

/-- After `k` redirects, `k` not above the number allowed, a failed exchange
rejects the call with its message. -/
theorem followRedirects_fails (req : ProxyRequest) (exchange : Nat → TransportOutcome) :
    ∀ (k allowed hop : Nat) (message : String), k ≤ allowed →
      (∀ j, j < k → ∃ r, exchange (hop + j) = .received r ∧ isRedirect r = true) →
      exchange (hop + k) = .failed message →
      followRedirects (axiosConfig req) exchange allowed hop = .error message := by
  intro k
  induction k with
  | zero =>
    intro allowed hop message _ _ hlast
    rw [Nat.add_zero] at hlast
    cases allowed <;> simp [followRedirects, hlast]
  | succ k ih =>
    intro allowed hop message hle hpre hlast
    obtain ⟨allowed, rfl⟩ : ∃ a, allowed = a + 1 := ⟨allowed - 1, by omega⟩
    obtain ⟨r0, hr0, hred0⟩ := hpre 0 (Nat.succ_pos k)
    rw [Nat.add_zero] at hr0
    have hstep : followRedirects (axiosConfig req) exchange (allowed + 1) hop =
        followRedirects (axiosConfig req) exchange allowed (hop + 1) := by
      simp [followRedirects, hr0, hred0]
    rw [hstep]
    refine ih allowed (hop + 1) message (by omega) ?_ ?_
    · intro j hj
      have := hpre (j + 1) (by omega)
      rwa [show hop + (j + 1) = hop + 1 + j by omega] at this
    · rwa [show hop + (k + 1) = hop + 1 + k by omega] at hlast

/-- One redirect more than allowed rejects the call. -/
theorem followRedirects_exceeds (req : ProxyRequest) (exchange : Nat → TransportOutcome) :
    ∀ (allowed hop : Nat),
      (∀ j, j ≤ allowed → ∃ r, exchange (hop + j) = .received r ∧ isRedirect r = true) →
      followRedirects (axiosConfig req) exchange allowed hop =
        .error "Maximum number of redirects exceeded" := by
  intro allowed
  induction allowed with
  | zero =>
    intro hop hall
    obtain ⟨r0, hr0, hred0⟩ := hall 0 (le_refl _)
    rw [Nat.add_zero] at hr0
    simp [followRedirects, hr0, hred0]
  | succ allowed ih =>
    intro hop hall
    obtain ⟨r0, hr0, hred0⟩ := hall 0 (Nat.zero_le _)
    rw [Nat.add_zero] at hr0
    have hstep : followRedirects (axiosConfig req) exchange (allowed + 1) hop =
        followRedirects (axiosConfig req) exchange allowed (hop + 1) := by
      simp [followRedirects, hr0, hred0]
    rw [hstep]
    refine ih (hop + 1) ?_
    intro j hj
    have := hall (j + 1) (by omega)
    rwa [show hop + (j + 1) = hop + 1 + j by omega] at this

/-- C1 as stated fails: an upstream that answers the request with `302 Found`
and a `Location` header, and the request for that location with `200 OK`, gets
an envelope of status 200, not 302; and an upstream that answers every request
with such a 302, each response well received, gets the 500 `Request Failed`
error. -/
theorem redirect_is_followed_not_relayed :
    (proxy ⟨some (.str "http://stub/a"), none, none, none, none, none⟩ 0 10
        (fun _ k =>
          if k = 0 then
            .received ⟨302, "Found", .obj [("location", .str "http://stub/b")], .str ""⟩
          else .received ⟨200, "OK", .obj [], .str "done"⟩)
        .resolved).response.body.get? "status" = some (.num 200) ∧
    (proxy ⟨some (.str "http://stub/a"), none, none, none, none, none⟩ 0 10
        (fun _ _ =>
          .received ⟨302, "Found", .obj [("location", .str "http://stub/a")], .str ""⟩)
        .resolved).response =
      ⟨500, .obj [("error", .str "Request Failed"),
        ("details", .str "Maximum number of redirects exceeded")]⟩ := by
  constructor <;> rfl

/-- C1, amended: for a request with a non-empty `url`, the HTTP client follows
redirects (responses with a status from 300 to 399 and a `Location` header), at
most `maxRedirects` of them, and the first response that is not a redirect,
whatever its status, is answered with code 200 and the envelope carrying that
response's status, status text, headers and data. A failed exchange, after
redirects only, is answered with the 500 `Request Failed` error carrying its
message, and so is one redirect more than allowed; the handler answers with
code 500 in these two cases only. -/
theorem proxy_relays_final_status (req : ProxyRequest) (u : String)
    (hurl : req.url = some (.str u)) (hu : u ≠ "")
    (startTime endTime : Int) (transport : AxiosConfig → Nat → TransportOutcome)
    (insertOutcome : InsertOutcome) :
    (∀ (k : Nat) (response : UpstreamResponse), k ≤ maxRedirects →
      (∀ j, j < k →
        ∃ r, transport (axiosConfig req) j = .received r ∧ isRedirect r = true) →
      transport (axiosConfig req) k = .received response → isRedirect response = false →
      (proxy req startTime endTime transport insertOutcome).response.code = 200 ∧
      (proxy req startTime endTime transport insertOutcome).response.body.get? "status" =
        some (.num response.status) ∧
      (proxy req startTime endTime transport insertOutcome).response.body.get? "statusText" =
        some (.str response.statusText) ∧
      (proxy req startTime endTime transport insertOutcome).response.body.get? "headers" =
        some response.headers ∧
      (proxy req startTime endTime transport insertOutcome).response.body.get? "data" =
        some response.data) ∧
    (∀ (k : Nat) (message : String), k ≤ maxRedirects →
      (∀ j, j < k →
        ∃ r, transport (axiosConfig req) j = .received r ∧ isRedirect r = true) →
      transport (axiosConfig req) k = .failed message →
      (proxy req startTime endTime transport insertOutcome).response =
        ⟨500, .obj [("error", .str "Request Failed"), ("details", .str message)]⟩) ∧
    ((∀ j, j ≤ maxRedirects →
        ∃ r, transport (axiosConfig req) j = .received r ∧ isRedirect r = true) →
      (proxy req startTime endTime transport insertOutcome).response =
        ⟨500, .obj [("error", .str "Request Failed"),
          ("details", .str "Maximum number of redirects exceeded")]⟩) ∧
    ((proxy req startTime endTime transport insertOutcome).response.code = 500 →
      (∃ k message, k ≤ maxRedirects ∧
        (∀ j, j < k →
          ∃ r, transport (axiosConfig req) j = .received r ∧ isRedirect r = true) ∧
        transport (axiosConfig req) k = .failed message) ∨
      (∀ j, j ≤ maxRedirects →
        ∃ r, transport (axiosConfig req) j = .received r ∧ isRedirect r = true)) := by
  have ht : truthy req.url = true := by rw [hurl]; exact truthy_str u hu
  have h0 : ∀ j, 0 + j = j := Nat.zero_add
  rw [proxy_of_truthy req ht]
  refine ⟨?_, ?_, ?_, ?_⟩
  · intro k response hk hpre hlast hnot
    have hres : axios (axiosConfig req) (transport (axiosConfig req)) = .ok response :=
      followRedirects_resolves req _ k maxRedirects 0 response hk
        (fun j hj => by rw [h0]; exact hpre j hj) (by rw [h0]; exact hlast) hnot
    rw [hres]
    exact ⟨rfl, rfl, rfl, rfl, rfl⟩
  · intro k message hk hpre hlast
    have hres : axios (axiosConfig req) (transport (axiosConfig req)) = .error message :=
      followRedirects_fails req _ k maxRedirects 0 message hk
        (fun j hj => by rw [h0]; exact hpre j hj) (by rw [h0]; exact hlast)
    rw [hres]
  · intro hall
    have hres : axios (axiosConfig req) (transport (axiosConfig req)) =
        .error "Maximum number of redirects exceeded" :=
      followRedirects_exceeds req _ maxRedirects 0 (fun j hj => by rw [h0]; exact hall j hj)
    rw [hres]
  · intro hc
    cases hres : axios (axiosConfig req) (transport (axiosConfig req)) with
    | ok response => rw [hres] at hc; simp at hc
    | error message =>
      rcases followRedirects_rejects req _ maxRedirects 0 message hres with
        ⟨k, hk, hpre, hfail⟩ | ⟨hall, _⟩
      · refine Or.inl ⟨k, message, hk, ?_, ?_⟩
        · intro j hj
          have := hpre j hj
          rwa [h0] at this
        · rwa [h0] at hfail
      · refine Or.inr ?_
        intro j hj
        have := hall j hj
        rwa [h0] at this

/-- Witness of the amended C1: an upstream answering 404 to a request for
`http://stub/echo`; the envelope has status 404. -/
theorem proxy_relays_final_status_witness :
    (proxy ⟨some (.str "http://stub/echo"), none, none, none, none, none⟩ 10 20
        (fun _ _ => .received ⟨404, "Not Found", .obj [], .str "gone"⟩) .pending).response.code
        = 200 ∧
      (proxy ⟨some (.str "http://stub/echo"), none, none, none, none, none⟩ 10 20
        (fun _ _ => .received ⟨404, "Not Found", .obj [], .str "gone"⟩)
        .pending).response.body.get? "status" = some (.num 404) :=
  ⟨((proxy_relays_final_status ⟨some (.str "http://stub/echo"), none, none, none, none, none⟩
      "http://stub/echo" rfl (by decide) 10 20
      (fun _ _ => .received ⟨404, "Not Found", .obj [], .str "gone"⟩) .pending).1
      0 ⟨404, "Not Found", .obj [], .str "gone"⟩ (Nat.zero_le _)
      (fun j hj => absurd hj (Nat.not_lt_zero j)) rfl rfl).1,
    ((proxy_relays_final_status ⟨some (.str "http://stub/echo"), none, none, none, none, none⟩
      "http://stub/echo" rfl (by decide) 10 20
      (fun _ _ => .received ⟨404, "Not Found", .obj [], .str "gone"⟩) .pending).1
      0 ⟨404, "Not Found", .obj [], .str "gone"⟩ (Nat.zero_le _)
      (fun j hj => absurd hj (Nat.not_lt_zero j)) rfl rfl).2.1⟩

/-- C2: a request whose `url` is missing or empty is answered 400 with
`URL is required`; no upstream call is issued and no history row is submitted. -/
theorem proxy_rejects_missing_url (req : ProxyRequest)
    (hurl : req.url = none ∨ req.url = some (.str ""))
    (startTime endTime : Int) (transport : AxiosConfig → Nat → TransportOutcome)
    (insertOutcome : InsertOutcome) :
    (proxy req startTime endTime transport insertOutcome).response =
        ⟨400, .obj [("error", .str "URL is required")]⟩ ∧
      (proxy req startTime endTime transport insertOutcome).upstreamCalls = [] ∧
      (proxy req startTime endTime transport insertOutcome).inserts = [] := by
  have hf : truthy req.url = false := by
    rcases hurl with h | h <;> rw [h] <;> rfl
  rw [proxy_of_falsy req hf]
  exact ⟨rfl, rfl, rfl⟩

/-- Witness of C2: the empty `url`, with an upstream that would have answered. -/
theorem proxy_rejects_missing_url_witness :
    (proxy ⟨some (.str ""), some (.str "GET"), none, none, none, some (.str "u1")⟩ 0 5
        (fun _ _ => .received ⟨200, "OK", .obj [], .null⟩) .resolved).response =
        ⟨400, .obj [("error", .str "URL is required")]⟩ ∧
      (proxy ⟨some (.str ""), some (.str "GET"), none, none, none, some (.str "u1")⟩ 0 5
        (fun _ _ => .received ⟨200, "OK", .obj [], .null⟩) .resolved).upstreamCalls = [] ∧
      (proxy ⟨some (.str ""), some (.str "GET"), none, none, none, some (.str "u1")⟩ 0 5
        (fun _ _ => .received ⟨200, "OK", .obj [], .null⟩) .resolved).inserts = [] :=
  proxy_rejects_missing_url
    ⟨some (.str ""), some (.str "GET"), none, none, none, some (.str "u1")⟩ (Or.inr rfl) 0 5
    (fun _ _ => .received ⟨200, "OK", .obj [], .null⟩) .resolved

/-- The two sizes quoted with the contract: seven and eleven code units. -/
theorem sizeField_examples :
    sizeField (.obj [("a", .num 1)]) = "7 bytes" ∧
      sizeField (.obj [("ok", .bool true)]) = "11 bytes" ∧
      sizeField (.str "hello") = "7 bytes" := by
  decide

/-- On a string of ASCII characters the code-unit count is the byte count. -/
theorem jsLength_eq_byteLength_of_ascii (s : String) (h : ∀ c ∈ s.toList, c.toNat < 128) :
    jsLength s = byteLength s := by
  obtain ⟨cs⟩ := s
  simp only [jsLength, byteLength, String.utf8ByteSize, String.toList] at *
  induction cs with
  | nil => rfl
  | cons c cs ih =>
    have hc : c.toNat < 128 := h c (List.mem_cons_self _ _)
    have hcs : ∀ d ∈ cs, d.toNat < 128 := fun d hd => h d (List.mem_cons_of_mem _ hd)
    have h1 : c.utf8Size = 1 := by
      have : c.val.toNat < 128 := hc
      simp only [Char.utf8Size]
      have h' : c.val ≤ 127 := by
        rw [UInt32.le_def]
        show c.val.toNat ≤ 127
        omega
      simp [h']
    simp only [List.map_cons, List.sum_cons, String.utf8ByteSize.go, h1]
    have h2 : c.toNat < 65536 := by omega
    simp only [h2, if_true]
    rw [ih hcs]
    omega

/-- C5, evaluated where it fails: for the upstream body `\x7b"a":"é"\x7d` the
envelope reports `9 bytes`, the number of UTF-16 code units of the serialised
body, while that serialisation is 10 bytes long. -/
theorem size_is_code_units_not_bytes :
    (proxy ⟨some (.str "http://stub/echo"), none, none, none, none, none⟩ 0 10
        (fun _ _ => .received ⟨200, "OK", .obj [], .obj [("a", .str (chr 233))]⟩)
        .resolved).response.body.get? "size" = some (.str "9 bytes") ∧
      byteLength (stringify (.obj [("a", .str (chr 233))])) = 10 := by
  constructor
  · rfl
  · decide

/-- The fate of the insert is observable on the console only. -/
theorem insert_outcome_reaches_logs :
    (proxy ⟨some (.str "http://stub/echo"), none, none, none, none, none⟩ 0 10
        (fun _ _ => .received ⟨200, "OK", .obj [], .null⟩) (.rejected "timeout")).logs =
      ["History insert error: timeout"] ∧
    (proxy ⟨some (.str "http://stub/echo"), none, none, none, none, none⟩ 0 10
        (fun _ _ => .received ⟨200, "OK", .obj [], .null⟩) .resolved).logs = [] := by
  constructor <;> rfl

/-- C6: two runs of the handler that differ only in the fate of the history
insert (resolved, rejected with an error, never settled) give the same HTTP
status and the same body, issue the same upstream calls and submit the same
rows. -/
theorem proxy_answer_ignores_insert_outcome (req : ProxyRequest) (startTime endTime : Int)
    (transport : AxiosConfig → Nat → TransportOutcome) (o₁ o₂ : InsertOutcome) :
    (proxy req startTime endTime transport o₁).response =
        (proxy req startTime endTime transport o₂).response ∧
      (proxy req startTime endTime transport o₁).upstreamCalls =
        (proxy req startTime endTime transport o₂).upstreamCalls ∧
      (proxy req startTime endTime transport o₁).inserts =
        (proxy req startTime endTime transport o₂).inserts := by
  cases ht : truthy req.url with
  | false => simp [proxy_of_falsy req ht]
  | true =>
    rw [proxy_of_truthy req ht, proxy_of_truthy req ht]
    cases axios (axiosConfig req) (transport (axiosConfig req)) <;> exact ⟨rfl, rfl, rfl⟩

/-- C7: the handler submits exactly one history row, the row of lines 54-63,
when the `axios` call resolves, and then answers with the envelope (code 200);
it submits none when the `url` is falsy, answering 400, and none when the
`axios` call rejects, answering 500 `Request Failed`. Hence a row is submitted
exactly when the answer is the envelope, and none exactly when the answer is
one of the two errors; a request with a truthy `url` whose first response is
not a redirect is a case of the first kind. -/
theorem history_insert_iff_envelope (req : ProxyRequest) (startTime endTime : Int)
    (transport : AxiosConfig → Nat → TransportOutcome) (insertOutcome : InsertOutcome) :
    (truthy req.url = true → ∀ response,
      axios (axiosConfig req) (transport (axiosConfig req)) = .ok response →
      (proxy req startTime endTime transport insertOutcome).response =
          ⟨200, envelope response startTime endTime⟩ ∧
        (proxy req startTime endTime transport insertOutcome).inserts = [historyRow req]) ∧
    (truthy req.url = true → ∀ response,
      transport (axiosConfig req) 0 = .received response → isRedirect response = false →
      (proxy req startTime endTime transport insertOutcome).response =
          ⟨200, envelope response startTime endTime⟩ ∧
        (proxy req startTime endTime transport insertOutcome).inserts = [historyRow req]) ∧
    (truthy req.url = true → ∀ message,
      axios (axiosConfig req) (transport (axiosConfig req)) = .error message →
      (proxy req startTime endTime transport insertOutcome).response =
          ⟨500, .obj [("error", .str "Request Failed"), ("details", .str message)]⟩ ∧
        (proxy req startTime endTime transport insertOutcome).inserts = []) ∧
    (truthy req.url = false →
      (proxy req startTime endTime transport insertOutcome).response =
          ⟨400, .obj [("error", .str "URL is required")]⟩ ∧
        (proxy req startTime endTime transport insertOutcome).inserts = []) ∧
    ((proxy req startTime endTime transport insertOutcome).response.code = 200 ↔
      (proxy req startTime endTime transport insertOutcome).inserts.length = 1) ∧
    ((proxy req startTime endTime transport insertOutcome).response.code = 400 ∨
        (proxy req startTime endTime transport insertOutcome).response.code = 500 ↔
      (proxy req startTime endTime transport insertOutcome).inserts = []) := by
  cases ht : truthy req.url with
  | false =>
    rw [proxy_of_falsy req ht]
    refine ⟨fun h => absurd h (by decide), fun h => absurd h (by decide),
      fun h => absurd h (by decide), fun _ => ⟨rfl, rfl⟩, ?_, ?_⟩
    · constructor <;> intro h <;> simp at h
    · constructor <;> intro _ <;> simp
  | true =>
    rw [proxy_of_truthy req ht]
    have hfirst : ∀ response, transport (axiosConfig req) 0 = .received response →
        isRedirect response = false →
        axios (axiosConfig req) (transport (axiosConfig req)) = .ok response :=
      fun response h0 hnot =>
        followRedirects_resolves req _ 0 maxRedirects 0 response (Nat.zero_le _)
          (fun j hj => absurd hj (Nat.not_lt_zero j)) h0 hnot
    cases hres : axios (axiosConfig req) (transport (axiosConfig req)) with
    | ok response =>
      refine ⟨?_, ?_, ?_, fun h => absurd h (by decide), ?_, ?_⟩
      · intro _ r hr
        cases hr
        exact ⟨rfl, rfl⟩
      · intro _ r h0 hnot
        have := hfirst r h0 hnot
        rw [hres] at this
        cases this
        exact ⟨rfl, rfl⟩
      · intro _ m hm
        cases hm
      · constructor <;> intro _ <;> rfl
      · constructor <;> intro h <;> simp at h
    | error message =>
      refine ⟨?_, ?_, ?_, fun h => absurd h (by decide), ?_, ?_⟩
      · intro _ r hr
        cases hr
      · intro _ r h0 hnot
        have := hfirst r h0 hnot
        rw [hres] at this
        cases this
      · intro _ m hm
        cases hm
        exact ⟨rfl, rfl⟩
      · constructor <;> intro h <;> simp at h
      · constructor <;> intro _ <;> simp

/-- Witness of C7: a relay whose upstream answers 404 submits one row, the
snapshot of the request, and answers with the envelope. -/
theorem history_insert_iff_envelope_witness :
    (proxy ⟨some (.str "http://stub/echo"), some (.str "GET"), none, none, none,
          some (.str "u1")⟩ 10 20
        (fun _ _ => .received ⟨404, "Not Found", .obj [], .str "gone"⟩) .pending).response =
      ⟨200, envelope ⟨404, "Not Found", .obj [], .str "gone"⟩ 10 20⟩ ∧
    (proxy ⟨some (.str "http://stub/echo"), some (.str "GET"), none, none, none,
          some (.str "u1")⟩ 10 20
        (fun _ _ => .received ⟨404, "Not Found", .obj [], .str "gone"⟩) .pending).inserts =
      [⟨some (.str "http://stub/echo"), some (.str "GET"), .obj [], .obj [],
        some (.str "u1")⟩] :=
  (history_insert_iff_envelope
    ⟨some (.str "http://stub/echo"), some (.str "GET"), none, none, none, some (.str "u1")⟩
    10 20 (fun _ _ => .received ⟨404, "Not Found", .obj [], .str "gone"⟩) .pending).2.1 rfl
    ⟨404, "Not Found", .obj [], .str "gone"⟩ rfl rfl

/-- C8 as stated fails: a request carrying `headers: ""`, `body: false` and
`user_id: 0` is relayed successfully; the row submitted has the empty mapping as
headers and as body, not the values sent, and no `user_id`. -/
theorem history_row_replaces_falsy_values :
    (proxy ⟨some (.str "http://stub/echo"), some (.str "POST"), some (.str ""),
          some (.bool false), none, some (.num 0)⟩ 0 10
        (fun _ _ => .received ⟨200, "OK", .obj [], .null⟩) .resolved).response.code = 200 ∧
    (∃ row,
      (proxy ⟨some (.str "http://stub/echo"), some (.str "POST"), some (.str ""),
            some (.bool false), none, some (.num 0)⟩ 0 10
          (fun _ _ => .received ⟨200, "OK", .obj [], .null⟩) .resolved).inserts = [row] ∧
      row.body = .obj [] ∧ row.body ≠ .bool false ∧
      row.headers = .obj [] ∧ row.headers ≠ .str "" ∧
      row.user_id = none) := by
  refine ⟨rfl, _, rfl, rfl, ?_, rfl, ?_, rfl⟩
  · intro h
    cases h
  · intro h
    cases h

/-- C8, amended: for every successful relay exactly one row is submitted; its
`url` and `method` are the request's; its `headers` are the request's when these
are truthy and the empty mapping otherwise; its `body` is the request's when
that is truthy and the empty mapping otherwise; it carries `user_id`, equal to
the request's, exactly when the request's `user_id` is truthy. -/
theorem history_row_snapshot (req : ProxyRequest) (startTime endTime : Int)
    (transport : AxiosConfig → Nat → TransportOutcome) (insertOutcome : InsertOutcome)
    (hok : (proxy req startTime endTime transport insertOutcome).response.code = 200) :
    ∃ row, (proxy req startTime endTime transport insertOutcome).inserts = [row] ∧
      row.url = req.url ∧ row.method = req.method ∧
      (∀ h, req.headers = some h → truthy (some h) = true → row.headers = h) ∧
      (truthy req.headers = false → row.headers = .obj []) ∧
      (∀ b, req.body = some b → truthy (some b) = true → row.body = b) ∧
      (truthy req.body = false → row.body = .obj []) ∧
      (∀ o, req.user_id = some o → truthy (some o) = true → row.user_id = some o) ∧
      (truthy req.user_id = false → row.user_id = none) := by
  cases ht : truthy req.url with
  | false =>
    rw [proxy_of_falsy req ht] at hok
    simp at hok
  | true =>
    rw [proxy_of_truthy req ht] at hok ⊢
    cases hO : axios (axiosConfig req) (transport (axiosConfig req)) with
    | error message =>
      rw [hO] at hok
      simp at hok
    | ok response =>
      refine ⟨historyRow req, rfl, rfl, rfl, ?_, ?_, ?_, ?_, ?_, ?_⟩
      · intro h hh hth
        simp [historyRow, orDefault, hh, hth]
      · intro hf
        cases hh : req.headers with
        | none => simp [historyRow, orDefault, hh]
        | some h =>
          rw [hh] at hf
          simp [historyRow, orDefault, hh, hf]
      · intro b hb htb
        simp [historyRow, orDefault, hb, htb]
      · intro hf
        cases hb : req.body with
        | none => simp [historyRow, orDefault, hb]
        | some b =>
          rw [hb] at hf
          simp [historyRow, orDefault, hb, hf]
      · intro o ho hto
        simp [historyRow, ho, hto]
      · intro hf
        simp [historyRow, hf]

/-- Witness of the amended C8: a request with headers, a body and an owner. -/
theorem history_row_snapshot_witness :
    ∃ row,
      (proxy ⟨some (.str "http://stub/echo"), some (.str "POST"),
            some (.obj [("accept", .str "*/*")]), some (.obj [("q", .num 1)]), none,
            some (.str "u1")⟩ 0 10
          (fun _ _ => .received ⟨201, "Created", .obj [], .null⟩) .pending).inserts = [row] ∧
      row.url = some (.str "http://stub/echo") ∧ row.method = some (.str "POST") ∧
      row.headers = .obj [("accept", .str "*/*")] ∧
      row.body = .obj [("q", .num 1)] ∧
      row.user_id = some (.str "u1") := by
  obtain ⟨row, hrow, hurl, hmethod, hheaders, _, hbody, _, huser, _⟩ :=
    history_row_snapshot
      ⟨some (.str "http://stub/echo"), some (.str "POST"),
        some (.obj [("accept", .str "*/*")]), some (.obj [("q", .num 1)]), none,
        some (.str "u1")⟩ 0 10
      (fun _ _ => .received ⟨201, "Created", .obj [], .null⟩) .pending rfl
  exact ⟨row, hrow, hurl, hmethod, hheaders _ rfl rfl, hbody _ rfl rfl, huser _ rfl rfl⟩

/-- C10 as stated fails: when the second clock reading is below the first (the
wall clock was set back by a millisecond during the call), a successful relay
answers with the elapsed time `-1ms`. -/
theorem elapsed_negative_when_clock_set_back :
    (proxy ⟨some (.str "http://stub/echo"), none, none, none, none, none⟩
        1700000000000 1699999999999
        (fun _ _ => .received ⟨200, "OK", .obj [], .null⟩) .resolved).response.code = 200 ∧
      (proxy ⟨some (.str "http://stub/echo"), none, none, none, none, none⟩
        1700000000000 1699999999999
        (fun _ _ => .received ⟨200, "OK", .obj [], .null⟩) .resolved).response.body.get? "time" =
        some (.str "-1ms") ∧
      ((1699999999999 : Int) - 1700000000000 < 0) := by
  refine ⟨rfl, rfl, by decide⟩

/-- C10, amended: in every successful relay the handler takes five steps, in
this order: it reads the clock (`startTime`), issues the `axios` call, reads the
clock again (`endTime`), submits the history row and answers; the call is
resolved with the response of the envelope. The field `time` is the text of
`endTime - startTime` followed by `ms`. When `endTime` is not below `startTime`
that text has no minus sign, and is the decimal text of a natural number as long
as the difference is below `10 ^ 21`; when `endTime` is below `startTime` the
field starts with a minus sign. -/
theorem time_is_end_minus_start (req : ProxyRequest) (startTime endTime : Int)
    (transport : AxiosConfig → Nat → TransportOutcome) (insertOutcome : InsertOutcome)
    (hok : (proxy req startTime endTime transport insertOutcome).response.code = 200) :
    (∃ response,
      axios (axiosConfig req) (transport (axiosConfig req)) = .ok response ∧
      (proxy req startTime endTime transport insertOutcome).trace =
        [.now startTime, .request (axiosConfig req), .now endTime,
          .insert (historyRow req),
          .respond ⟨200, envelope response startTime endTime⟩] ∧
      (proxy req startTime endTime transport insertOutcome).response =
        ⟨200, envelope response startTime endTime⟩) ∧
    (proxy req startTime endTime transport insertOutcome).response.body.get? "time" =
        some (.str (numberToString (endTime - startTime) ++ "ms")) ∧
    (startTime ≤ endTime →
      Char.ofNat 45 ∉ (numberToString (endTime - startTime) ++ "ms").toList ∧
      (endTime - startTime < 10 ^ 21 →
        (proxy req startTime endTime transport insertOutcome).response.body.get? "time" =
          some (.str (toString (endTime - startTime).toNat ++ "ms")))) ∧
    (endTime < startTime →
      ∃ rest,
        (proxy req startTime endTime transport insertOutcome).response.body.get? "time" =
          some (.str ("-" ++ rest ++ "ms"))) := by
  cases ht : truthy req.url with
  | false =>
    rw [proxy_of_falsy req ht] at hok
    simp at hok
  | true =>
    rw [proxy_of_truthy req ht] at hok ⊢
    cases hO : axios (axiosConfig req) (transport (axiosConfig req)) with
    | error message =>
      rw [hO] at hok
      simp at hok
    | ok response =>
      have hfield : (envelope response startTime endTime).get? "time" =
          some (.str (numberToString (endTime - startTime) ++ "ms")) := rfl
      refine ⟨⟨response, rfl, rfl, rfl⟩, hfield, ?_, ?_⟩
      · intro hle
        have hnn : 0 ≤ endTime - startTime := by omega
        refine ⟨?_, ?_⟩
        · intro hmem
          simp only [String.toList, String.data_append, List.mem_append] at hmem
          rcases hmem with h | h
          · exact numberToString_nonneg _ hnn h
          · revert h; decide
        · intro hsmall
          show (envelope response startTime endTime).get? "time" = _
          rw [hfield]
          obtain ⟨n, hn⟩ := Int.eq_ofNat_of_zero_le hnn
          have hlt : (endTime - startTime).natAbs < 10 ^ 21 := by omega
          simp only [numberToString, hlt, if_true]
          rw [hn]
          rfl
      · intro hlt
        obtain ⟨rest, hrest⟩ := numberToString_neg (endTime - startTime) (by omega)
        refine ⟨rest, ?_⟩
        show (envelope response startTime endTime).get? "time" = _
        rw [hfield, hrest]

/-- Witness of the amended C10: readings 1000 and 1050 give `50ms`, the first
taken before the upstream call and the second after it. -/
theorem time_is_end_minus_start_witness :
    (proxy ⟨some (.str "http://stub/echo"), none, none, none, none, none⟩ 1000 1050
        (fun _ _ => .received ⟨200, "OK", .obj [], .null⟩) .resolved).response.body.get? "time" =
      some (.str "50ms") :=
  (time_is_end_minus_start ⟨some (.str "http://stub/echo"), none, none, none, none, none⟩
    1000 1050 (fun _ _ => .received ⟨200, "OK", .obj [], .null⟩) .resolved rfl).2.1

/-! ## Properties of the history handlers -/

/-- A row survives `deleteByIdAndUser` unless it has both the id and the owner. -/
theorem mem_deleteByIdAndUser (historyId : RecordId) (userId : String)
    (history : List HistoryEntry) (r : HistoryEntry) :
    r ∈ deleteByIdAndUser historyId userId history ↔
      r ∈ history ∧ ¬ (r.id = historyId ∧ r.user_id = some userId) := by
  simp only [deleteByIdAndUser, List.mem_filter, Bool.not_eq_true', Bool.and_eq_false_imp,
    beq_iff_eq, beq_eq_false_iff_ne, ne_eq, Bool.not_eq_eq_eq_not, Bool.not_true, not_and]

/-- A row survives `deleteByUser` unless it has the owner. -/
theorem mem_deleteByUser (userId : String) (history : List HistoryEntry) (r : HistoryEntry) :
    r ∈ deleteByUser userId history ↔ r ∈ history ∧ r.user_id ≠ some userId := by
  simp [deleteByUser, List.mem_filter]

/-- The table left by `DELETE /api/history/:id` is the old one or the filtered one. -/
theorem deleteHistoryItem_table (userId : Option String) (historyId : RecordId)
    (history : List HistoryEntry) (storeError : Option String) :
    (deleteHistoryItem userId historyId history storeError).2 = history ∨
      ∃ uid, userId = some uid ∧
        (deleteHistoryItem userId historyId history storeError).2 =
          deleteByIdAndUser historyId uid history := by
  unfold deleteHistoryItem
  cases userId with
  | none => exact Or.inl rfl
  | some uid =>
    by_cases hu : uid = ""
    · simp [hu]
    · cases storeError with
      | some message => simp [hu]
      | none => exact Or.inr ⟨uid, rfl, by simp [hu]⟩

/-- The table left by `DELETE /api/history` is the old one or the filtered one. -/
theorem clearHistory_table (userId : Option String)
    (history : List HistoryEntry) (storeError : Option String) :
    (clearHistory userId history storeError).2 = history ∨
      ∃ uid, userId = some uid ∧
        (clearHistory userId history storeError).2 = deleteByUser uid history := by
  unfold clearHistory
  cases userId with
  | none => exact Or.inl rfl
  | some uid =>
    by_cases hu : uid = ""
    · simp [hu]
    · cases storeError with
      | some message => simp [hu]
      | none => exact Or.inr ⟨uid, rfl, by simp [hu]⟩

/-- When `DELETE /api/history` answers `History cleared`, the query was run. -/
theorem clearHistory_ok (userId : Option String)
    (history : List HistoryEntry) (storeError : Option String)
    (hok : (clearHistory userId history storeError).1 = .ok "History cleared") :
    ∃ uid, userId = some uid ∧
      (clearHistory userId history storeError).2 = deleteByUser uid history := by
  unfold clearHistory at hok ⊢
  cases userId with
  | none => simp at hok
  | some uid =>
    by_cases hu : uid = ""
    · simp [hu] at hok
    · cases storeError with
      | some message => simp [hu] at hok
      | none => exact ⟨uid, rfl, by simp [hu]⟩

/-- C3: whatever the table `history`, the `user-id` header, the id and the
store's answer, every row whose owner is not the caller is still in the table
after `DELETE /api/history/:id`, also when its id is the one given, and after
`DELETE /api/history`; the query of `DELETE /api/history` leaves no row of the
caller, and so does the handler whenever it answers `History cleared`, which it
does for every non-empty `user-id` when the store reports no error. -/
theorem history_deletes_spare_other_owners (history : List HistoryEntry)
    (userId : Option String) (historyId : RecordId) (storeError : Option String) :
    (∀ r ∈ history, r.user_id ≠ userId →
      r ∈ (deleteHistoryItem userId historyId history storeError).2) ∧
    (∀ r ∈ history, r.user_id ≠ userId →
      r ∈ (clearHistory userId history storeError).2) ∧
    (∀ uid, ∀ r ∈ deleteByUser uid history, r.user_id ≠ some uid) ∧
    ((clearHistory userId history storeError).1 = .ok "History cleared" →
      ∀ r ∈ (clearHistory userId history storeError).2, r.user_id ≠ userId) ∧
    (∀ uid, userId = some uid → uid ≠ "" → storeError = none →
      (clearHistory userId history storeError).1 = .ok "History cleared") := by
  refine ⟨?_, ?_, ?_, ?_, ?_⟩
  · intro r hr hne
    rcases deleteHistoryItem_table userId historyId history storeError with h | ⟨uid, hu, h⟩
    · rw [h]; exact hr
    · rw [h, mem_deleteByIdAndUser]
      refine ⟨hr, ?_⟩
      rintro ⟨_, hown⟩
      exact hne (by rw [hown, hu])
  · intro r hr hne
    rcases clearHistory_table userId history storeError with h | ⟨uid, hu, h⟩
    · rw [h]; exact hr
    · rw [h, mem_deleteByUser]
      exact ⟨hr, fun hown => hne (by rw [hown, hu])⟩
  · intro uid r hr
    exact ((mem_deleteByUser uid history r).1 hr).2
  · intro hok r hr
    obtain ⟨uid, hu, h⟩ := clearHistory_ok userId history storeError hok
    rw [h, mem_deleteByUser] at hr
    rw [hu]
    exact hr.2
  · intro uid hu hne herr
    subst hu; subst herr
    simp [clearHistory, hne]

/-- Witness of C3: `alice` asks to delete id `8`, a row of `bob`; the row stays. -/
theorem history_deletes_spare_other_owners_witness :
    (⟨"8", some "bob", .str "http://b/1", .str "GET", .obj [], .obj [], 300⟩ : HistoryEntry) ∈
      (deleteHistoryItem (some "alice") "8" sampleHistory none).2 :=
  (history_deletes_spare_other_owners sampleHistory (some "alice") "8" none).1 _
    (List.mem_cons_of_mem _ (List.mem_cons_self _ _)) (by decide)

/-- The sample table after `alice` clears her history, and after she asks to
delete row `8` of `bob` and row `7` of her own. -/
theorem history_deletes_examples :
    (clearHistory (some "alice") sampleHistory none).2 =
      [⟨"8", some "bob", .str "http://b/1", .str "GET", .obj [], .obj [], 300⟩,
       ⟨"9", none, .str "http://c/1", .str "GET", .obj [], .obj [], 400⟩] ∧
    (deleteHistoryItem (some "alice") "8" sampleHistory none).2 = sampleHistory ∧
    (deleteHistoryItem (some "alice") "7" sampleHistory none).2 =
      [⟨"5", some "alice", .str "http://a/1", .str "GET", .obj [], .obj [], 100⟩,
       ⟨"8", some "bob", .str "http://b/1", .str "GET", .obj [], .obj [], 300⟩,
       ⟨"9", none, .str "http://c/1", .str "GET", .obj [], .obj [], 400⟩] ∧
    (clearHistory (some "") sampleHistory none) = (.error 400 "User ID required", sampleHistory) := by
  refine ⟨rfl, rfl, rfl, rfl⟩

/-- The rows of `orderDesc` are the rows given. -/
theorem mem_orderDesc {α : Type} (created_at : α → Nat) (rows : List α) (r : α) :
    r ∈ orderDesc created_at rows ↔ r ∈ rows :=
  (List.perm_insertionSort (newestFirst created_at) rows).mem_iff

/-- The rows of `orderDesc` stand newest first. -/
theorem orderDesc_sorted {α : Type} (created_at : α → Nat) (rows : List α) :
    (orderDesc created_at rows).Pairwise (fun a b => created_at b ≤ created_at a) :=
  List.sorted_insertionSort (newestFirst created_at) rows

/-- The length of `orderDesc` is the length given. -/
theorem length_orderDesc {α : Type} (created_at : α → Nat) (rows : List α) :
    (orderDesc created_at rows).length = rows.length :=
  List.length_insertionSort (newestFirst created_at) rows

/-- C9: for every table `history` and every non-empty `user-id`, when the store
reports no error `GET /api/history` answers 200 with at most 50 rows (50, or all
the rows of that owner when there are fewer); every row returned is a row of the
table owned by that owner; the rows stand newest first by `created_at`; and no
row of that owner left out is newer than a row returned. -/
theorem getHistory_newest_fifty (history : List HistoryEntry) (uid : String)
    (hne : uid ≠ "") :
    getHistory (some uid) history none = .ok (selectHistory uid history) ∧
    (selectHistory uid history).length ≤ 50 ∧
    (selectHistory uid history).length =
      min 50 (history.filter (fun r => r.user_id == some uid)).length ∧
    (∀ r ∈ selectHistory uid history, r ∈ history ∧ r.user_id = some uid) ∧
    (selectHistory uid history).Pairwise (fun a b => b.created_at ≤ a.created_at) ∧
    (∀ r ∈ selectHistory uid history, ∀ q ∈ history, q.user_id = some uid →
      q ∉ selectHistory uid history → q.created_at ≤ r.created_at) := by
  refine ⟨?_, ?_, ?_, ?_, ?_, ?_⟩
  · simp [getHistory, hne]
  · simp only [selectHistory, List.length_take]
    exact Nat.min_le_left _ _
  · simp only [selectHistory, List.length_take, length_orderDesc]
  · intro r hr
    have hmem := (mem_orderDesc _ _ r).1 (List.mem_of_mem_take hr)
    rw [List.mem_filter] at hmem
    exact ⟨hmem.1, by simpa using hmem.2⟩
  · exact (orderDesc_sorted _ _).sublist (List.take_sublist _ _)
  · intro r hr q hq hown hnot
    have hq' : q ∈ orderDesc HistoryEntry.created_at
        (history.filter (fun r => r.user_id == some uid)) := by
      rw [mem_orderDesc, List.mem_filter]
      exact ⟨hq, by simp [hown]⟩
    rw [← List.take_append_drop 50 (orderDesc HistoryEntry.created_at
        (history.filter (fun r => r.user_id == some uid))), List.mem_append] at hq'
    rcases hq' with h | h
    · exact absurd h hnot
    · exact List.Sorted.rel_of_mem_take_of_mem_drop
        (List.sorted_insertionSort (newestFirst HistoryEntry.created_at) _) hr h

/-- Witness of C9: the history of `alice` in the sample table. -/
theorem getHistory_newest_fifty_witness :
    "alice" ≠ "" ∧
    getHistory (some "alice") sampleHistory none = .ok (selectHistory "alice" sampleHistory) ∧
    (selectHistory "alice" sampleHistory).length ≤ 50 :=
  ⟨by decide, (getHistory_newest_fifty sampleHistory "alice" (by decide)).1,
    (getHistory_newest_fifty sampleHistory "alice" (by decide)).2.1⟩

/-- The rows of `alice` in the sample table, newest first. -/
theorem selectHistory_example :
    selectHistory "alice" sampleHistory =
      [⟨"7", some "alice", .str "http://a/2", .str "POST", .obj [], .obj [], 200⟩,
       ⟨"5", some "alice", .str "http://a/1", .str "GET", .obj [], .obj [], 100⟩] := by
  rfl

/-! ## Properties of `GET /api/collections` -/

/-- C4: `GET /api/collections` answers 200 only with the join of the caller's
collections and the items fetched, and does so for every non-empty `user-id`
when the store reports no error. For all lists of collections and items the join
has one entry per collection, in the same order and with the collection's own
fields; the `items` of an entry are exactly the fetched items whose
`collection_id` is the entry's id, in the order fetched: none of another
collection, every matching one, each as often as it was fetched. -/
theorem getCollections_joins_items (collections : List Collection)
    (collection_items : List CollectionItem) (userId : Option String)
    (colError itemError : Option String) :
    (∀ result, getCollections userId collections collection_items colError itemError
        = .ok result →
      ∃ uid, userId = some uid ∧
        result = joinItems (selectCollections uid collections) collection_items) ∧
    (∀ uid, uid ≠ "" →
      getCollections (some uid) collections collection_items none none =
        .ok (joinItems (selectCollections uid collections) collection_items)) ∧
    (∀ (cols : List Collection) (items : List CollectionItem),
      (joinItems cols items).map (fun e => e.toCollection) = cols ∧
      (joinItems cols items).length = cols.length ∧
      ∀ e ∈ joinItems cols items,
        e.items = items.filter (fun i => i.collection_id == some e.id) ∧
        (∀ i ∈ e.items, i ∈ items ∧ i.collection_id = some e.id) ∧
        (∀ i ∈ items, i.collection_id = some e.id → i ∈ e.items) ∧
        e.items.Sublist items ∧
        (items.Nodup → e.items.Nodup)) := by
  refine ⟨?_, ?_, ?_⟩
  · intro result h
    unfold getCollections at h
    cases userId with
    | none => simp at h
    | some uid =>
      by_cases hu : uid = ""
      · simp [hu] at h
      · cases colError with
        | some message => simp [hu] at h
        | none =>
          cases itemError with
          | some message => simp [hu] at h
          | none =>
            simp only [hu, if_false, Reply.ok.injEq] at h
            exact ⟨uid, rfl, h.symm⟩
  · intro uid hu
    simp [getCollections, hu]
  · intro cols items
    refine ⟨?_, ?_, ?_⟩
    · simp [joinItems, Function.comp_def]
    · simp [joinItems]
    · intro e he
      simp only [joinItems, List.mem_map] at he
      obtain ⟨c, _, rfl⟩ := he
      refine ⟨rfl, ?_, ?_, List.filter_sublist _, fun hnd => hnd.filter _⟩
      · intro i hi
        have := List.mem_filter.1 hi
        exact ⟨this.1, by simpa using this.2⟩
      · intro i hi hc
        exact List.mem_filter.2 ⟨hi, by simp [hc]⟩

/-- Witness of C4: the collections of `alice` in the sample tables. -/
theorem getCollections_joins_items_witness :
    getCollections (some "alice") sampleCollections sampleItems none none =
      .ok (joinItems (selectCollections "alice" sampleCollections) sampleItems) :=
  (getCollections_joins_items sampleCollections sampleItems (some "alice") none none).2.1
    "alice" (by decide)

/-- The answer to `alice` on the sample tables: her two collections, newest
first, the first without items and the second with items `i1` and `i3`. -/
theorem getCollections_example :
    getCollections (some "alice") sampleCollections sampleItems none none =
      .ok [⟨⟨"c2", .str "second", some "alice", 20⟩, []⟩,
        ⟨⟨"c1", .str "first", some "alice", 10⟩,
          [⟨"i1", some "c1", .str "a", .str "http://a", .str "GET", .obj [], .obj []⟩,
           ⟨"i3", some "c1", .str "c", .str "http://c", .str "GET", .obj [], .obj []⟩]⟩] := by
  rfl

end ApiTestingTool
